import Mathlib

/-!
Verification of the county scoring and filtering pipeline of
`src/app.py` (Dirt Flipper's County Score Bot).

The data model embeds one row of the input table.  Every scored field is
optional, mirroring the Python `row.get(key, default)` access pattern of
`calculate_county_score`: a `none` field stands for a key absent from the
row, and the per-field default is substituted at each access site exactly
as in the source.  Real-valued arithmetic models Python floats; the single
transcendental operation of the source, `math.log10`, is modelled by
`Real.logb 10`.
-/

/-- One row of input data (`CountyRecord` of the data model):
the columns of `create_sample_data` in `src/app.py`.  Scored fields are
`Option ℝ`, `none` meaning the key is absent from the row. -/
structure CountyRecord where
  state : String
  county : String
  soldComps6m : Option ℝ
  daysOnMarket : Option ℝ
  soldListedRatio6m : Option ℝ
  outOfStateRatio : Option ℝ
  outOfCountyRatio : Option ℝ
  momPriceChangePct : Option ℝ
  populationChangePct : Option ℝ
  populationPerSqMile : Option ℝ
  forSaleCompsAll : Option ℝ
  soldCompsAll : Option ℝ

/-- Sold Comps (6m) subscore, `src/app.py` lines 137-139:
`sold_comps = max(row.get('Sold Comps (6m)', 0), 1)`;
`sold_score = min(100, (math.log10(sold_comps) / math.log10(1000)) * 100)`. -/
noncomputable def sold_score (row : CountyRecord) : ℝ :=
  let sold_comps := max (row.soldComps6m.getD 0) 1
  min 100 ((Real.logb 10 sold_comps / Real.logb 10 1000) * 100)

/-- Sold-Listed Ratio subscore, `src/app.py` lines 142-144:
`sold_listed_score = min(100, sold_listed * 100)` with default 0. -/
noncomputable def sold_listed_score (row : CountyRecord) : ℝ :=
  let sold_listed := row.soldListedRatio6m.getD 0
  min 100 (sold_listed * 100)

/-- Days on Market subscore, `src/app.py` lines 147-154: 100 inside the
90..180 sweet spot, `100 - (90 - dom) * 0.5` below, and
`max(0, 100 - (dom - 180) * 0.2)` above; default 300. -/
noncomputable def dom_score (row : CountyRecord) : ℝ :=
  let dom := row.daysOnMarket.getD 300
  if 90 ≤ dom ∧ dom ≤ 180 then 100
  else if dom < 90 then 100 - (90 - dom) * 0.5
  else max 0 (100 - (dom - 180) * 0.2)

/-- For Sale / Sold subscore, `src/app.py` lines 158-161:
`fs_ratio = for_sale / max(sold_all, 1)`;
`fs_score = max(0, 100 - fs_ratio * 10)`; defaults 1 and 1. -/
noncomputable def fs_score (row : CountyRecord) : ℝ :=
  let for_sale := row.forSaleCompsAll.getD 1
  let sold_all := max (row.soldCompsAll.getD 1) 1
  let fs_ratio := for_sale / sold_all
  max 0 (100 - fs_ratio * 10)

/-- Out of State Ratio subscore, `src/app.py` lines 165-166:
`oos_score = oos_ratio * 100`, default 0. -/
noncomputable def oos_score (row : CountyRecord) : ℝ :=
  (row.outOfStateRatio.getD 0) * 100

/-- Out of County Ratio subscore, `src/app.py` lines 170-171:
`ooc_score = ooc_ratio * 100`, default 0. -/
noncomputable def ooc_score (row : CountyRecord) : ℝ :=
  (row.outOfCountyRatio.getD 0) * 100

/-- MoM Price Change subscore, `src/app.py` lines 175-179: 100 inside
[-2, 5], otherwise `max(0, 100 - abs(price_change - 1.5) * 10)`;
default 0. -/
noncomputable def price_score (row : CountyRecord) : ℝ :=
  let price_change := row.momPriceChangePct.getD 0
  if -2 ≤ price_change ∧ price_change ≤ 5 then 100
  else max 0 (100 - |price_change - 1.5| * 10)

/-- Population Change subscore, `src/app.py` lines 183-184:
`pop_score = max(0, min(100, (pop_change + 5) * 10))`, default 0. -/
noncomputable def pop_score (row : CountyRecord) : ℝ :=
  let pop_change := row.populationChangePct.getD 0
  max 0 (min 100 ((pop_change + 5) * 10))

/-- Population Density subscore, `src/app.py` lines 188-189:
`density_score = max(0, 100 - (pop_density / 10))`, default 1000. -/
noncomputable def density_score (row : CountyRecord) : ℝ :=
  let pop_density := row.populationPerSqMile.getD 1000
  max 0 (100 - pop_density / 10)

/-- `calculate_county_score` of `src/app.py` lines 119-192: the weighted
sum of the nine subscores with the weights of the `weights` dict
(0.30, 0.20, 0.10, 0.10, 0.05, 0.05, 0.05, 0.05, 0.10), finally clamped
by `min(100, max(0, score))`. -/
noncomputable def calculate_county_score (row : CountyRecord) : ℝ :=
  min 100 (max 0
    (sold_score row * 0.30
      + sold_listed_score row * 0.20
      + dom_score row * 0.10
      + fs_score row * 0.10
      + oos_score row * 0.05
      + ooc_score row * 0.05
      + price_score row * 0.05
      + pop_score row * 0.05
      + density_score row * 0.10))

/-- `assign_grade` of `src/app.py` lines 194-205. -/
noncomputable def assign_grade (score : ℝ) : String :=
  if score ≥ 80 then "A"
  else if score ≥ 65 then "B"
  else if score ≥ 50 then "C"
  else if score ≥ 35 then "D"
  else "F"

/-- A scored row: the input row plus the `Score` and `Grade` columns
added at `src/app.py` lines 227-228. -/
structure ScoredCounty extends CountyRecord where
  score : ℝ
  grade : String

/-- Scoring pipeline, `src/app.py` lines 227-228:
`df['Score'] = df.apply(calculate_county_score, axis=1)`;
`df['Grade'] = df['Score'].apply(assign_grade)`. -/
noncomputable def scoreTable (df : List CountyRecord) : List ScoredCounty :=
  df.map (fun row =>
    { row with
        score := calculate_county_score row
        grade := assign_grade (calculate_county_score row) })

/-- Filter criteria (`FilterCriteria` of the data model): the sidebar
selections `selected_states`, `grade_filter` and `min_comps` of
`src/app.py` lines 236-256. -/
structure FilterCriteria where
  selectedStates : List String
  allowedGrades : List String
  minSoldComps6m : ℝ

/-- The row predicate of the boolean mask at `src/app.py` lines 287-291:
`df['State'].isin(selected_states) & df['Grade'].isin(grade_filter)
& (df['Sold Comps (6m)'] >= min_comps)`. -/
def matchesCriteria (c : FilterCriteria) (row : ScoredCounty) : Prop :=
  row.state ∈ c.selectedStates ∧ row.grade ∈ c.allowedGrades ∧
    c.minSoldComps6m ≤ row.soldComps6m.getD 0

/-- The mask predicate is decidable (classically for the real-number
comparison, as in the source's float comparison). -/
noncomputable instance (c : FilterCriteria) (row : ScoredCounty) :
    Decidable (matchesCriteria c row) :=
  inferInstanceAs (Decidable (row.state ∈ c.selectedStates ∧
    row.grade ∈ c.allowedGrades ∧
    c.minSoldComps6m ≤ row.soldComps6m.getD 0))

/-- `filtered_df` of `src/app.py` lines 287-294: keep the rows passing
the mask, then `sort_values('Score', ascending=False)`, modelled as a
comparison sort by descending score. -/
noncomputable def filtered_df (df : List ScoredCounty) (c : FilterCriteria) :
    List ScoredCounty :=
  (df.filter (fun row =>
      decide (row.state ∈ c.selectedStates)
        && decide (row.grade ∈ c.allowedGrades)
        && decide (c.minSoldComps6m ≤ row.soldComps6m.getD 0))).mergeSort
    (fun a b => decide (b.score ≤ a.score))

/-- `create_sample_data` of `src/app.py` lines 101-117, one
`CountyRecord` per row of the `sample_data` dict. -/
noncomputable def create_sample_data : List CountyRecord :=
  [⟨"Florida", "Lee County", some 4870, some 96, some 1.57, some 0.298,
      some 0.245, some (-3.3), some 8.0, some 125.1, some 3905, some 2267⟩,
   ⟨"Florida", "Charlotte County", some 2181, some 135, some 0.99, some 0.433,
      some 0.367, some (-1.5), some 2.8, some 73.1, some 926, some 518⟩,
   ⟨"Florida", "Marion County", some 1564, some 143, some 0.99, some 0.283,
      some 0.334, some 2.6, some 1.2, some 66.3, some 410, some 231⟩,
   ⟨"Arizona", "Mohave County", some 1644, some 257, some 0.68, some 0.588,
      some 0.669, some (-2.0), some 4.2, some 16.6, some 7382, some 4835⟩,
   ⟨"Arizona", "Apache County", some 363, some 224, some 0.40, some 0.508,
      some 0.87, some 4.5, some (-1.3), some 5.8, some 3047, some 991⟩,
   ⟨"Colorado", "Costilla County", some 469, some 172, some 0.44, some 0.718,
      some 0.482, some (-0.4), some 0.0, some 3.2, some 1069, some 469⟩,
   ⟨"Colorado", "Archuleta County", some 208, some 224, some 1.65, some 0.526,
      some 0.484, some (-0.4), some 2.9, some 11.0, some 126, some 208⟩,
   ⟨"Texas", "Brewster County", some 89, some 298, some 0.33, some 0.445,
      some 0.623, some 1.2, some 3.7, some 0.8, some 270, some 89⟩,
   ⟨"Texas", "Presidio County", some 45, some 345, some 0.22, some 0.389,
      some 0.578, some (-2.1), some 1.8, some 2.1, some 205, some 45⟩]

/-- A row with every scored field absent, so each `row.get` default
applies. -/
def emptyRow : CountyRecord :=
  ⟨"Nowhere", "No County", none, none, none, none, none, none, none, none,
    none, none⟩

/-- The denominator `math.log10(1000)` of the sold-comps subscore is
exactly 3. -/
theorem logb_ten_1000 : Real.logb 10 1000 = 3 := by
  rw [show (1000 : ℝ) = 10 ^ (3 : ℕ) by norm_num, Real.logb_pow,
    Real.logb_self_eq_one (by norm_num)]
  norm_num

/-- C1: for every input record the score is bounded, `0 ≤ score ≤ 100`,
enforced by the final `min(100, max(0, score))` clamp of
`calculate_county_score`. -/
theorem score_in_range (row : CountyRecord) :
    0 ≤ calculate_county_score row ∧ calculate_county_score row ≤ 100 := by
  unfold calculate_county_score
  exact ⟨le_min (by norm_num) (le_max_left 0 _), min_le_left _ _⟩

/-- C3: `assign_grade` is a pure step function of the score with
lower-bound-inclusive bands A ≥ 80, B ∈ [65,80), C ∈ [50,65),
D ∈ [35,50), F < 35; in particular at the eight boundary probes
79.9, 80, 64.9, 65, 49.9, 50, 34.9, 35. -/
theorem assign_grade_spec (s : ℝ) :
    ((assign_grade s = "A" ↔ 80 ≤ s) ∧
      (assign_grade s = "B" ↔ 65 ≤ s ∧ s < 80) ∧
      (assign_grade s = "C" ↔ 50 ≤ s ∧ s < 65) ∧
      (assign_grade s = "D" ↔ 35 ≤ s ∧ s < 50) ∧
      (assign_grade s = "F" ↔ s < 35)) ∧
    assign_grade (79.9 : ℝ) = "B" ∧ assign_grade (80 : ℝ) = "A" ∧
    assign_grade (64.9 : ℝ) = "C" ∧ assign_grade (65 : ℝ) = "B" ∧
    assign_grade (49.9 : ℝ) = "D" ∧ assign_grade (50 : ℝ) = "C" ∧
    assign_grade (34.9 : ℝ) = "F" ∧ assign_grade (35 : ℝ) = "D" := by
  have char : ∀ t : ℝ,
      (assign_grade t = "A" ↔ 80 ≤ t) ∧
      (assign_grade t = "B" ↔ 65 ≤ t ∧ t < 80) ∧
      (assign_grade t = "C" ↔ 50 ≤ t ∧ t < 65) ∧
      (assign_grade t = "D" ↔ 35 ≤ t ∧ t < 50) ∧
      (assign_grade t = "F" ↔ t < 35) := by
    intro t
    unfold assign_grade
    split_ifs with h1 h2 h3 h4 <;>
      refine ⟨?_, ?_, ?_, ?_, ?_⟩ <;> simp <;>
      first
        | linarith
        | (intro h; linarith)
        | (constructor <;> linarith)
  refine ⟨char s, ?_, ?_, ?_, ?_, ?_, ?_, ?_, ?_⟩
  · exact ((char _).2.1).mpr (by norm_num)
  · exact ((char _).1).mpr (by norm_num)
  · exact ((char _).2.2.1).mpr (by norm_num)
  · exact ((char _).2.1).mpr (by norm_num)
  · exact ((char _).2.2.2.1).mpr (by norm_num)
  · exact ((char _).2.2.1).mpr (by norm_num)
  · exact ((char _).2.2.2.2).mpr (by norm_num)
  · exact ((char _).2.2.2.1).mpr (by norm_num)

/-- C9: the days-on-market subscore is 100 on the 90..180 band,
`100 - (90 - dom) * 0.5` below it and `max 0 (100 - (dom - 180) * 0.2)`
above it; at the boundary probes dom = 90, 89, 181, 0 it takes the
values 100, 99.5, 99.8 and 55. -/
theorem dom_score_spec (row : CountyRecord) :
    (90 ≤ row.daysOnMarket.getD 300 → row.daysOnMarket.getD 300 ≤ 180 →
      dom_score row = 100) ∧
    (row.daysOnMarket.getD 300 < 90 →
      dom_score row = 100 - (90 - row.daysOnMarket.getD 300) * 0.5) ∧
    (180 < row.daysOnMarket.getD 300 →
      dom_score row = max 0 (100 - (row.daysOnMarket.getD 300 - 180) * 0.2)) ∧
    (row.daysOnMarket = some 90 → dom_score row = 100) ∧
    (row.daysOnMarket = some 89 → dom_score row = 99.5) ∧
    (row.daysOnMarket = some 181 → dom_score row = 99.8) ∧
    (row.daysOnMarket = some 0 → dom_score row = 55) := by
  unfold dom_score
  refine ⟨?_, ?_, ?_, ?_, ?_, ?_, ?_⟩
  · intro h1 h2; rw [if_pos ⟨h1, h2⟩]
  · intro h; rw [if_neg (by push_neg; intro h'; linarith), if_pos h]
  · intro h
    rw [if_neg (by push_neg; intro h'; linarith), if_neg (by linarith)]
  · intro h; rw [h]; norm_num
  · intro h; rw [h]; norm_num
  · intro h; rw [h]; norm_num
  · intro h; rw [h]; norm_num

/-- Witness for C9 at concrete rows: dom = 89 scores 99.5, dom = 181
scores 99.8, and dom = 100 (inside the band) scores 100. -/
theorem dom_score_spec_witness :
    dom_score { emptyRow with daysOnMarket := some 89 } = 99.5 ∧
    dom_score { emptyRow with daysOnMarket := some 181 } = 99.8 ∧
    dom_score { emptyRow with daysOnMarket := some 100 } = 100 :=
  ⟨(dom_score_spec _).2.2.2.2.1 rfl,
    (dom_score_spec _).2.2.2.2.2.1 rfl,
    (dom_score_spec _).1 (by norm_num) (by norm_num)⟩

/-- C10: the row with every scored field absent scores exactly 24.1
(only the days-on-market, for-sale/sold, price-change and
population-change subscores contribute) and is graded F. -/
theorem empty_row_score :
    calculate_county_score emptyRow = 24.1 ∧
    assign_grade (calculate_county_score emptyRow) = "F" := by
  have h : calculate_county_score emptyRow = 24.1 := by
    unfold calculate_county_score sold_score sold_listed_score dom_score
      fs_score oos_score ooc_score price_score pop_score density_score emptyRow
    norm_num [Real.logb_one]
  refine ⟨h, ?_⟩
  rw [h]
  unfold assign_grade
  norm_num

/-- Lee County, Florida: the first row of `create_sample_data`
(`src/app.py` lines 104-115). -/
noncomputable def lee_county : CountyRecord :=
  ⟨"Florida", "Lee County", some 4870, some 96, some 1.57, some 0.298,
    some 0.245, some (-3.3), some 8.0, some 125.1, some 3905, some 2267⟩

/-- C4: the Lee County sample row scores at least 80 and is therefore
graded A; it is the first row of the sample data. -/
theorem lee_county_grade_A :
    create_sample_data.headD emptyRow = lee_county ∧
    80 ≤ calculate_county_score lee_county ∧
    assign_grade (calculate_county_score lee_county) = "A" := by
  have h4870 : (3 : ℝ) ≤ Real.logb 10 4870 := by
    rw [← logb_ten_1000]
    exact Real.logb_le_logb_of_le (by norm_num) (by norm_num) (by norm_num)
  have hsold : sold_score lee_county = 100 := by
    have h : sold_score lee_county =
        min 100 ((Real.logb 10 (max (4870 : ℝ) 1) / Real.logb 10 1000) * 100) :=
      rfl
    rw [h, max_eq_left (by norm_num : (1 : ℝ) ≤ 4870), logb_ten_1000]
    exact min_eq_left (by linarith)
  have h2 : sold_listed_score lee_county = 100 := by
    have h : sold_listed_score lee_county = min 100 ((1.57 : ℝ) * 100) := rfl
    rw [h]; norm_num
  have h3 : dom_score lee_county = 100 := by
    have h : dom_score lee_county =
        if (90 : ℝ) ≤ 96 ∧ (96 : ℝ) ≤ 180 then (100 : ℝ)
        else if (96 : ℝ) < 90 then 100 - (90 - 96) * 0.5
        else max 0 (100 - (96 - 180) * 0.2) := rfl
    rw [h]; norm_num
  have h4 : fs_score lee_county = 100 - (3905 / 2267) * 10 := by
    have h : fs_score lee_county =
        max 0 (100 - ((3905 : ℝ) / max (2267 : ℝ) 1) * 10) := rfl
    rw [h, max_eq_left (by norm_num : (1 : ℝ) ≤ 2267)]
    exact max_eq_right (by norm_num)
  have h5 : oos_score lee_county = 29.8 := by
    have h : oos_score lee_county = (0.298 : ℝ) * 100 := rfl
    rw [h]; norm_num
  have h6 : ooc_score lee_county = 24.5 := by
    have h : ooc_score lee_county = (0.245 : ℝ) * 100 := rfl
    rw [h]; norm_num
  have h7 : price_score lee_county = 52 := by
    have h : price_score lee_county =
        if (-2 : ℝ) ≤ -3.3 ∧ (-3.3 : ℝ) ≤ 5 then (100 : ℝ)
        else max 0 (100 - |(-3.3 : ℝ) - 1.5| * 10) := rfl
    rw [h, if_neg (by norm_num), abs_of_neg (by norm_num)]
    norm_num
  have h8 : pop_score lee_county = 100 := by
    have h : pop_score lee_county =
        max 0 (min 100 (((8.0 : ℝ) + 5) * 10)) := rfl
    rw [h]; norm_num
  have h9 : density_score lee_county = 87.49 := by
    have h : density_score lee_county = max 0 (100 - (125.1 : ℝ) / 10) := rfl
    rw [h]; norm_num
  have hscore : 80 ≤ calculate_county_score lee_county := by
    unfold calculate_county_score
    rw [hsold, h2, h3, h4, h5, h6, h7, h8, h9]
    refine le_min (by norm_num) (le_trans ?_ (le_max_right 0 _))
    norm_num
  refine ⟨rfl, hscore, ?_⟩
  unfold assign_grade
  rw [if_pos (show calculate_county_score lee_county ≥ 80 from hscore)]

/-- Guarded `math.log10`: Python raises `ValueError: math domain error`
on a non-positive argument. -/
noncomputable def log10_checked (x : ℝ) : Option ℝ :=
  if x ≤ 0 then none else some (Real.logb 10 x)

/-- Guarded float division: Python raises `ZeroDivisionError` when the
denominator is zero. -/
noncomputable def div_checked (a b : ℝ) : Option ℝ :=
  if b = 0 then none else some (a / b)

/-- `calculate_county_score` of `src/app.py` lines 119-192, restated
with every fallible Python operation of its body (the two `math.log10`
calls and the two divisions) guarded in the `Option` monad; every other
step is total arithmetic. -/
noncomputable def calculate_county_score_checked (row : CountyRecord) :
    Option ℝ := do
  let sold_comps := max (row.soldComps6m.getD 0) 1
  let lg_sold ← log10_checked sold_comps
  let lg_1000 ← log10_checked 1000
  let sold_ratio ← div_checked lg_sold lg_1000
  let s_sold := min 100 (sold_ratio * 100)
  let s_sold_listed := min 100 ((row.soldListedRatio6m.getD 0) * 100)
  let dom := row.daysOnMarket.getD 300
  let s_dom := if 90 ≤ dom ∧ dom ≤ 180 then (100 : ℝ)
    else if dom < 90 then 100 - (90 - dom) * 0.5
    else max 0 (100 - (dom - 180) * 0.2)
  let sold_all := max (row.soldCompsAll.getD 1) 1
  let fs_ratio ← div_checked (row.forSaleCompsAll.getD 1) sold_all
  let s_fs := max 0 (100 - fs_ratio * 10)
  let s_oos := (row.outOfStateRatio.getD 0) * 100
  let s_ooc := (row.outOfCountyRatio.getD 0) * 100
  let price_change := row.momPriceChangePct.getD 0
  let s_price := if -2 ≤ price_change ∧ price_change ≤ 5 then (100 : ℝ)
    else max 0 (100 - |price_change - 1.5| * 10)
  let s_pop := max 0 (min 100 ((row.populationChangePct.getD 0 + 5) * 10))
  let s_density := max 0 (100 - (row.populationPerSqMile.getD 1000) / 10)
  return min 100 (max 0
    (s_sold * 0.30 + s_sold_listed * 0.20 + s_dom * 0.10 + s_fs * 0.10
      + s_oos * 0.05 + s_ooc * 0.05 + s_price * 0.05 + s_pop * 0.05
      + s_density * 0.10))

/-- C8: the scorer is total.  Every guard of the checked scorer passes
on every record shape: the log argument is at least 1, `log10(1000)` is
3 and not 0, and the for-sale/sold denominator is at least 1; the
checked run always returns the plain score. -/
theorem calculate_county_score_total (row : CountyRecord) :
    1 ≤ max (row.soldComps6m.getD 0) 1 ∧
    1 ≤ max (row.soldCompsAll.getD 1) 1 ∧
    calculate_county_score_checked row = some (calculate_county_score row) := by
  refine ⟨le_max_right _ 1, le_max_right _ 1, ?_⟩
  have h1 : log10_checked (max (row.soldComps6m.getD 0) 1) =
      some (Real.logb 10 (max (row.soldComps6m.getD 0) 1)) := by
    unfold log10_checked
    rw [if_neg (not_le.mpr (lt_of_lt_of_le zero_lt_one (le_max_right _ 1)))]
  have h2 : log10_checked 1000 = some (Real.logb 10 1000) := by
    unfold log10_checked
    rw [if_neg (by norm_num : ¬(1000 : ℝ) ≤ 0)]
  have h3 : div_checked (Real.logb 10 (max (row.soldComps6m.getD 0) 1))
      (Real.logb 10 1000) =
      some (Real.logb 10 (max (row.soldComps6m.getD 0) 1) /
        Real.logb 10 1000) := by
    unfold div_checked
    rw [if_neg (by rw [logb_ten_1000]; norm_num)]
  have h4 : div_checked (row.forSaleCompsAll.getD 1)
      (max (row.soldCompsAll.getD 1) 1) =
      some (row.forSaleCompsAll.getD 1 / max (row.soldCompsAll.getD 1) 1) := by
    unfold div_checked
    rw [if_neg (ne_of_gt (lt_of_lt_of_le zero_lt_one (le_max_right _ 1)))]
  simp only [calculate_county_score_checked, Option.bind_eq_bind, h1, h2, h3,
    h4, Option.some_bind, Option.pure_def]
  simp only [calculate_county_score, sold_score, sold_listed_score, dom_score,
    fs_score, oos_score, ooc_score, price_score, pop_score, density_score]

/-- The sold-comps subscore is monotone in the `Sold Comps (6m)` field:
`log10` is increasing, the positive denominator and factor preserve
order, and `min` keeps it. -/
theorem sold_score_mono (row : CountyRecord) {a b : ℝ} (hab : a ≤ b) :
    sold_score { row with soldComps6m := some a } ≤
      sold_score { row with soldComps6m := some b } := by
  show min 100 ((Real.logb 10 (max a 1) / Real.logb 10 1000) * 100) ≤
    min 100 ((Real.logb 10 (max b 1) / Real.logb 10 1000) * 100)
  rw [logb_ten_1000]
  have hlog : Real.logb 10 (max a 1) ≤ Real.logb 10 (max b 1) :=
    Real.logb_le_logb_of_le (by norm_num)
      (lt_of_lt_of_le zero_lt_one (le_max_right a 1))
      (max_le_max hab le_rfl)
  exact min_le_min le_rfl (by linarith)

/-- The density subscore is antitone in the `Population-Sq Mile`
field. -/
theorem density_score_anti (row : CountyRecord) {a b : ℝ} (hab : a ≤ b) :
    density_score { row with populationPerSqMile := some b } ≤
      density_score { row with populationPerSqMile := some a } := by
  show max 0 (100 - b / 10) ≤ max 0 (100 - a / 10)
  exact max_le_max le_rfl (by linarith)

/-- The out-of-state subscore is monotone in the
`Out of State to Total Ratio` field. -/
theorem oos_score_mono (row : CountyRecord) {a b : ℝ} (hab : a ≤ b) :
    oos_score { row with outOfStateRatio := some a } ≤
      oos_score { row with outOfStateRatio := some b } := by
  show a * 100 ≤ b * 100
  linarith

/-- C5: holding all other fields fixed, `calculate_county_score` is
non-decreasing in `soldComps6m`, non-increasing in
`populationPerSqMile`, and non-decreasing in `outOfStateRatio`. -/
theorem score_monotonic (row : CountyRecord) (a b : ℝ) (hab : a ≤ b) :
    calculate_county_score { row with soldComps6m := some a } ≤
      calculate_county_score { row with soldComps6m := some b } ∧
    calculate_county_score { row with populationPerSqMile := some b } ≤
      calculate_county_score { row with populationPerSqMile := some a } ∧
    calculate_county_score { row with outOfStateRatio := some a } ≤
      calculate_county_score { row with outOfStateRatio := some b } := by
  refine ⟨?_, ?_, ?_⟩
  · have hs := sold_score_mono row hab
    unfold calculate_county_score
    have e2 : sold_listed_score { row with soldComps6m := some a } =
        sold_listed_score { row with soldComps6m := some b } := rfl
    have e3 : dom_score { row with soldComps6m := some a } =
        dom_score { row with soldComps6m := some b } := rfl
    have e4 : fs_score { row with soldComps6m := some a } =
        fs_score { row with soldComps6m := some b } := rfl
    have e5 : oos_score { row with soldComps6m := some a } =
        oos_score { row with soldComps6m := some b } := rfl
    have e6 : ooc_score { row with soldComps6m := some a } =
        ooc_score { row with soldComps6m := some b } := rfl
    have e7 : price_score { row with soldComps6m := some a } =
        price_score { row with soldComps6m := some b } := rfl
    have e8 : pop_score { row with soldComps6m := some a } =
        pop_score { row with soldComps6m := some b } := rfl
    have e9 : density_score { row with soldComps6m := some a } =
        density_score { row with soldComps6m := some b } := rfl
    rw [e2, e3, e4, e5, e6, e7, e8, e9]
    refine min_le_min le_rfl (max_le_max le_rfl ?_)
    have : sold_score { row with soldComps6m := some a } * 0.30 ≤
        sold_score { row with soldComps6m := some b } * 0.30 := by linarith
    linarith
  · have hs := density_score_anti row hab
    unfold calculate_county_score
    have e1 : sold_score { row with populationPerSqMile := some b } =
        sold_score { row with populationPerSqMile := some a } := rfl
    have e2 : sold_listed_score { row with populationPerSqMile := some b } =
        sold_listed_score { row with populationPerSqMile := some a } := rfl
    have e3 : dom_score { row with populationPerSqMile := some b } =
        dom_score { row with populationPerSqMile := some a } := rfl
    have e4 : fs_score { row with populationPerSqMile := some b } =
        fs_score { row with populationPerSqMile := some a } := rfl
    have e5 : oos_score { row with populationPerSqMile := some b } =
        oos_score { row with populationPerSqMile := some a } := rfl
    have e6 : ooc_score { row with populationPerSqMile := some b } =
        ooc_score { row with populationPerSqMile := some a } := rfl
    have e7 : price_score { row with populationPerSqMile := some b } =
        price_score { row with populationPerSqMile := some a } := rfl
    have e8 : pop_score { row with populationPerSqMile := some b } =
        pop_score { row with populationPerSqMile := some a } := rfl
    rw [e1, e2, e3, e4, e5, e6, e7, e8]
    refine min_le_min le_rfl (max_le_max le_rfl ?_)
    have : density_score { row with populationPerSqMile := some b } * 0.10 ≤
        density_score { row with populationPerSqMile := some a } * 0.10 := by
      linarith
    linarith
  · have hs := oos_score_mono row hab
    unfold calculate_county_score
    have e1 : sold_score { row with outOfStateRatio := some a } =
        sold_score { row with outOfStateRatio := some b } := rfl
    have e2 : sold_listed_score { row with outOfStateRatio := some a } =
        sold_listed_score { row with outOfStateRatio := some b } := rfl
    have e3 : dom_score { row with outOfStateRatio := some a } =
        dom_score { row with outOfStateRatio := some b } := rfl
    have e4 : fs_score { row with outOfStateRatio := some a } =
        fs_score { row with outOfStateRatio := some b } := rfl
    have e6 : ooc_score { row with outOfStateRatio := some a } =
        ooc_score { row with outOfStateRatio := some b } := rfl
    have e7 : price_score { row with outOfStateRatio := some a } =
        price_score { row with outOfStateRatio := some b } := rfl
    have e8 : pop_score { row with outOfStateRatio := some a } =
        pop_score { row with outOfStateRatio := some b } := rfl
    have e9 : density_score { row with outOfStateRatio := some a } =
        density_score { row with outOfStateRatio := some b } := rfl
    rw [e1, e2, e3, e4, e6, e7, e8, e9]
    refine min_le_min le_rfl (max_le_max le_rfl ?_)
    have : oos_score { row with outOfStateRatio := some a } * 0.05 ≤
        oos_score { row with outOfStateRatio := some b } * 0.05 := by linarith
    linarith

/-- Witness for C5 at concrete inputs: raising sold comps 10 to 20 on
the all-defaults row does not lower the score, raising density 10 to 20
does not raise it, and raising the out-of-state ratio 0.1 to 0.2 does
not lower it. -/
theorem score_monotonic_witness :
    calculate_county_score { emptyRow with soldComps6m := some 10 } ≤
      calculate_county_score { emptyRow with soldComps6m := some 20 } ∧
    calculate_county_score { emptyRow with populationPerSqMile := some 20 } ≤
      calculate_county_score { emptyRow with populationPerSqMile := some 10 } ∧
    calculate_county_score { emptyRow with outOfStateRatio := some 0.1 } ≤
      calculate_county_score { emptyRow with outOfStateRatio := some 0.2 } :=
  ⟨(score_monotonic emptyRow 10 20 (by norm_num)).1,
    (score_monotonic emptyRow 10 20 (by norm_num)).2.1,
    (score_monotonic emptyRow 0.1 0.2 (by norm_num)).2.2⟩

/-- The boolean mask of `filtered_df` decides exactly the conjunction
`matchesCriteria`. -/
theorem filter_mask_eq (df : List ScoredCounty) (c : FilterCriteria) :
    df.filter (fun row =>
        decide (row.state ∈ c.selectedStates)
          && decide (row.grade ∈ c.allowedGrades)
          && decide (c.minSoldComps6m ≤ row.soldComps6m.getD 0)) =
      df.filter (fun row => decide (matchesCriteria c row)) := by
  congr 1
  funext row
  simp [matchesCriteria, Bool.and_assoc]

/-- C2: `filtered_df` returns exactly the rows satisfying the
conjunction `state ∈ selectedStates ∧ grade ∈ allowedGrades ∧
soldComps6m ≥ minSoldComps6m` (a permutation of the plain filter), and
its output is pairwise descending in score. -/
theorem filtered_df_spec (df : List ScoredCounty) (c : FilterCriteria) :
    (filtered_df df c).Pairwise (fun a b => b.score ≤ a.score) ∧
    (filtered_df df c).Perm
      (df.filter (fun row => decide (matchesCriteria c row))) := by
  constructor
  · have h := @List.sorted_mergeSort ScoredCounty
      (fun a b => decide (b.score ≤ a.score))
      (fun a b c hab hbc => by
        simp only [decide_eq_true_eq] at *
        exact le_trans hbc hab)
      (fun a b => by
        simp only [Bool.or_eq_true, decide_eq_true_eq]
        exact le_total b.score a.score)
      (df.filter (fun row =>
        decide (row.state ∈ c.selectedStates)
          && decide (row.grade ∈ c.allowedGrades)
          && decide (c.minSoldComps6m ≤ row.soldComps6m.getD 0)))
    exact h.imp (fun hab => by simpa using hab)
  · exact (List.mergeSort_perm _ _).trans
      (by rw [filter_mask_eq df c])

/-- C7: with an empty state selection or an empty grade selection the
filter result is the empty list, an ordinary value. -/
theorem filtered_df_empty_criteria (df : List ScoredCounty)
    (c : FilterCriteria)
    (h : c.selectedStates = [] ∨ c.allowedGrades = []) :
    filtered_df df c = [] := by
  unfold filtered_df
  have hf : df.filter (fun row =>
      decide (row.state ∈ c.selectedStates)
        && decide (row.grade ∈ c.allowedGrades)
        && decide (c.minSoldComps6m ≤ row.soldComps6m.getD 0)) = [] := by
    rw [List.filter_eq_nil_iff]
    intro row _
    rcases h with h | h <;> simp [h]
  rw [hf, List.mergeSort_nil]

/-- Witness for C7: on a one-row table, both an empty state list and an
empty grade list give the empty result. -/
theorem filtered_df_empty_criteria_witness :
    filtered_df [⟨emptyRow, 50, "C"⟩]
      ⟨[], ["A", "B", "C", "D", "F"], 0⟩ = [] ∧
    filtered_df [⟨emptyRow, 50, "C"⟩] ⟨["Florida"], [], 0⟩ = [] :=
  ⟨filtered_df_empty_criteria _ _ (Or.inl rfl),
    filtered_df_empty_criteria _ _ (Or.inr rfl)⟩
